import Mathlib

/-
  Verification development for the s3-client library.

  C strings are modelled as lists of bytes (`List Nat`); a valid C string
  has no 0 byte and every byte below 256.  Where the C source casts through
  `unsigned char`, the model takes the byte modulo 256 explicitly.

  Layout: all definitions first, then the lemmas and theorems.
-/

namespace S3

set_option maxRecDepth 8192

/-! ## Byte-string model -/

/-- Bytes of a NUL-terminated C string (the terminator excluded). -/
abbrev CStr := List Nat

/-- Bytes of an ASCII string literal (each char is one byte). -/
def strBytes (s : String) : CStr := s.data.map Char.toNat

/-- The newline byte. -/
def NL : CStr := [10]

/-! ## Error model -/

/-- Mirrors `s3_error_code_t` from include/s3/client.h.  The spec's uniform
error-kind names map onto these: its TRANSPORT kind is `curl` here. -/
inductive ErrorCode where
  | ok
  | invalid_arg
  | nomem
  | init
  | curl
  | http
  | sigv4
  | io
  | timeout
  | not_found
  | auth
  | access_denied
  | cancelled
  | internal
deriving DecidableEq

/-- curl result code CURLE_OK (numeric value from curl.h). -/
def CURLE_OK : Nat := 0
/-- curl result code CURLE_COULDNT_RESOLVE_HOST. -/
def CURLE_COULDNT_RESOLVE_HOST : Nat := 6
/-- curl result code CURLE_COULDNT_CONNECT. -/
def CURLE_COULDNT_CONNECT : Nat := 7
/-- curl result code CURLE_WRITE_ERROR. -/
def CURLE_WRITE_ERROR : Nat := 23
/-- curl result code CURLE_READ_ERROR. -/
def CURLE_READ_ERROR : Nat := 26
/-- curl result code CURLE_OPERATION_TIMEDOUT. -/
def CURLE_OPERATION_TIMEDOUT : Nat := 28

/-- Mirrors `s3_http_map_curl_error` (src/src/http/http_easy.c, lines 18-36). -/
def s3_http_map_curl_error (cc : Nat) : ErrorCode :=
  if cc = CURLE_OK then .ok
  else if cc = CURLE_OPERATION_TIMEDOUT then .timeout
  else if cc = CURLE_COULDNT_RESOLVE_HOST ∨ cc = CURLE_COULDNT_CONNECT then .init
  else if cc = CURLE_READ_ERROR ∨ cc = CURLE_WRITE_ERROR then .io
  else .curl

/-- Mirrors `s3_http_map_http_status` (src/src/http/http_easy.c, lines 38-52);
the status is a C `long`. -/
def s3_http_map_http_status (status : Int) : ErrorCode :=
  if 200 ≤ status ∧ status < 300 then .ok
  else if status = 404 then .not_found
  else if status = 403 then .access_denied
  else if status = 401 then .auth
  else if status = 408 then .timeout
  else .http

/-- Transport-failure kind as the spec words it: timeout to TIMEOUT,
name resolution or connect refused to INIT, body read/write errors to
the io kind, any other transport failure to the transport kind (`curl`). -/
def claimTransportKind (cc : Nat) : ErrorCode :=
  if cc = CURLE_OPERATION_TIMEDOUT then .timeout
  else if cc = CURLE_COULDNT_RESOLVE_HOST ∨ cc = CURLE_COULDNT_CONNECT then .init
  else if cc = CURLE_READ_ERROR ∨ cc = CURLE_WRITE_ERROR then .io
  else .curl

/-- HTTP-status kind as the spec words it: 2xx ok, then 401, 403, 404, 408,
any other status the generic http kind. -/
def claimStatusKind (status : Int) : ErrorCode :=
  if 200 ≤ status ∧ status < 300 then .ok
  else if status = 401 then .auth
  else if status = 403 then .access_denied
  else if status = 404 then .not_found
  else if status = 408 then .timeout
  else .http

/-! ## DeleteObjects XML body builder (src/src/http/http_util.c) -/

/-- One entry of the DeleteObjects input: mirrors `s3_delete_object_t`.
`none` models a NULL pointer. -/
structure DeleteObject where
  key : Option CStr
  version_id : Option CStr
deriving DecidableEq

/-- Mirrors `s3_delete_objects_opts_t`: `objects = none` models a NULL
objects pointer; the C `count` field is the list length. -/
structure DeleteObjectsOpts where
  objects : Option (List DeleteObject)
  quiet : Bool
deriving DecidableEq

/-- One step of `s3_xml_append_escaped` (src/src/http/http_util.c, lines
66-116): the four special bytes become entities, every other byte is copied
unchanged.  (The function's `default:` arm is unreachable: the scan only
stops at these four bytes or at the terminator.) -/
def s3_xml_escape_byte (b : Nat) : CStr :=
  if b = 38 then strBytes "&amp;"
  else if b = 60 then strBytes "&lt;"
  else if b = 62 then strBytes "&gt;"
  else if b = 34 then strBytes "&quot;"
  else [b]

/-- Mirrors `s3_xml_append_escaped`: the escaped form of a whole string. -/
def s3_xml_append_escaped (s : CStr) : CStr := s.flatMap s3_xml_escape_byte

/-- The per-object loop of `s3_build_delete_body` (src/src/http/http_util.c,
lines 385-413): an object with a NULL or empty key aborts with INVALID_ARG
before later objects are examined; otherwise its XML fragment is emitted.
The string literals are the exact chunks the C source appends. -/
def s3_build_delete_body_loop : List DeleteObject → Except ErrorCode CStr
  | [] => Except.ok []
  | obj :: rest =>
    if obj.key = none ∨ obj.key = some [] then Except.error ErrorCode.invalid_arg
    else
      match s3_build_delete_body_loop rest with
      | Except.error e => Except.error e
      | Except.ok tail =>
        Except.ok (strBytes "  <Object>\n    <Key>"
          ++ s3_xml_append_escaped (obj.key.getD [])
          ++ strBytes "</Key>\n"
          ++ (match obj.version_id with
              | some v =>
                if v ≠ [] then
                  strBytes "    <VersionId>" ++ s3_xml_append_escaped v
                    ++ strBytes "</VersionId>\n"
                else []
              | none => [])
          ++ strBytes "  </Object>\n"
          ++ tail)

/-- Mirrors `s3_build_delete_body` (src/src/http/http_util.c, lines 353-418):
validates the objects array (NULL or count 0 is INVALID_ARG), then emits the
root element, the optional Quiet element, the per-object fragments and the
closing tag. -/
def s3_build_delete_body (opts : DeleteObjectsOpts) : Except ErrorCode CStr :=
  match opts.objects with
  | none => Except.error ErrorCode.invalid_arg
  | some objs =>
    if objs = [] then Except.error ErrorCode.invalid_arg
    else
      match s3_build_delete_body_loop objs with
      | Except.error e => Except.error e
      | Except.ok mid =>
        Except.ok (strBytes "<Delete xmlns=\"http://s3.amazonaws.com/doc/2006-03-01/\">\n"
          ++ (if opts.quiet then strBytes "  <Quiet>true</Quiet>\n" else [])
          ++ mid
          ++ strBytes "</Delete>")

/-- The per-object XML fragment exactly as the claim words it: two-space
indented Object element, four-space indented Key holding the escaped key,
the VersionId line iff version_id is non-null and non-empty. -/
def claimObjectXml (obj : DeleteObject) : CStr :=
  strBytes "  <Object>" ++ NL
  ++ strBytes "    <Key>" ++ s3_xml_append_escaped (obj.key.getD [])
  ++ strBytes "</Key>" ++ NL
  ++ (match obj.version_id with
      | some v =>
        if v ≠ [] then
          strBytes "    <VersionId>" ++ s3_xml_append_escaped v
            ++ strBytes "</VersionId>" ++ NL
        else []
      | none => [])
  ++ strBytes "  </Object>" ++ NL

/-- The whole DeleteObjects body exactly as the claim words it. -/
def claimDeleteBody (quiet : Bool) (l : List DeleteObject) : CStr :=
  strBytes "<Delete xmlns=\"http://s3.amazonaws.com/doc/2006-03-01/\">" ++ NL
  ++ (if quiet then strBytes "  <Quiet>true</Quiet>" ++ NL else [])
  ++ (l.map claimObjectXml).flatten
  ++ strBytes "</Delete>"

/-! ## ListObjectsV2 URL builder (src/src/http/http_util.c) -/

/-- Mirrors `s3_list_objects_opts_t` (include/s3/client.h), reduced to the
fields the URL builder reads.  `pfx` is the C field named after the keyword;
`max_keys` is a C uint32. -/
structure ListObjectsOpts where
  bucket : Option CStr
  pfx : Option CStr
  max_keys : Nat
  continuation_token : Option CStr

/-- The hex digit table of s3_url_encode_query. -/
def urlHexTable : CStr := strBytes "0123456789ABCDEF"

/-- One step of `s3_url_encode_query` (src/src/http/http_util.c, lines
144-160): the byte is cast through unsigned char (modelled as % 256);
RFC 3986 unreserved bytes are copied, every other byte becomes a percent
sign and two digits looked up in the hex table. -/
def s3_url_encode_byte (b0 : Nat) : CStr :=
  let c := b0 % 256
  if (65 ≤ c ∧ c ≤ 90) ∨ (97 ≤ c ∧ c ≤ 122) ∨ (48 ≤ c ∧ c ≤ 57) ∨
      c = 45 ∨ c = 46 ∨ c = 95 ∨ c = 126 then
    [c]
  else
    [37, urlHexTable.getD ((c / 16) % 16) 0, urlHexTable.getD (c % 16) 0]

/-- Mirrors `s3_url_encode_query` on a non-NULL source string. -/
def s3_url_encode_query (src : CStr) : CStr := src.flatMap s3_url_encode_byte

/-- The single trailing-slash strip the URL builders apply to the endpoint
(one byte at most). -/
def stripTrailingSlash (e : CStr) : CStr :=
  if e.getLast? = some 47 then e.dropLast else e

/-- Mirrors `s3_build_list_url` (src/src/http/http_util.c, lines 257-349):
bucket defaults to the client's default bucket; NULL endpoint or bucket is
INVALID_ARG; otherwise the URL is assembled by the write sequence of the
source.  Allocation failure paths are not modelled. -/
def s3_build_list_url (endpoint : Option CStr) (default_bucket : Option CStr)
    (opts : ListObjectsOpts) : Except ErrorCode CStr :=
  let bucket := match opts.bucket with
    | some b => some b
    | none => default_bucket
  match endpoint, bucket with
  | some e, some b =>
    Except.ok (stripTrailingSlash e ++ [47] ++ b ++ strBytes "?list-type=2"
      ++ (match opts.pfx with
          | some p => if p ≠ [] then strBytes "&prefix=" ++ s3_url_encode_query p else []
          | none => [])
      ++ (if 0 < opts.max_keys then
            strBytes "&max-keys=" ++ strBytes (toString opts.max_keys) else [])
      ++ (match opts.continuation_token with
          | some t => if t ≠ [] then
              strBytes "&continuation-token=" ++ s3_url_encode_query t else []
          | none => []))
  | _, _ => Except.error ErrorCode.invalid_arg

/-- Query encoding as the claim words it: ASCII letters, digits, hyphen,
dot, underscore and tilde stay literal; every other octet becomes a percent
sign followed by two uppercase hex digits (arithmetic digits, not a table
lookup). -/
def claimQueryEncodeByte (b0 : Nat) : CStr :=
  let c := b0 % 256
  if c ∈ strBytes "ABCDEFGHIJKLMNOPQRSTUVWXYZabcdefghijklmnopqrstuvwxyz0123456789-._~"
  then [c]
  else
    [37, if c / 16 < 10 then 48 + c / 16 else 55 + c / 16,
      if c % 16 < 10 then 48 + c % 16 else 55 + c % 16]

/-- The claim's query encoding on a whole string. -/
def claimQueryEncode (s : CStr) : CStr := s.flatMap claimQueryEncodeByte

/-! ## Write adapter (src/src/http/curl_easy_factory.c) -/

/-- The write-stream kinds of `s3_easy_io_t`. -/
inductive WriteIoKind where
  | ioNone
  | ioFd
  | ioMem
deriving DecidableEq

/-- Mirrors `s3_curl_write_cb` (src/src/http/curl_easy_factory.c, lines
150-218), reduced to the number of bytes it accepts: `total` is
h->write_bytes_total before the call, `buf_size` the chunk the transport
offers, `pwrite_rc` the outcome of the positional write for the fd kind
(`none` models a hard error, answered with 0; `some rc` a write of rc bytes,
never more than requested).  Buffer growth for the mem kind is modelled as
succeeding.  The transport treats any return different from buf_size as
CURLE_WRITE_ERROR. -/
def s3_curl_write_cb (kind : WriteIoKind) (size_limit total buf_size : Nat)
    (pwrite_rc : Option Nat) : Nat :=
  if buf_size = 0 then 0
  else if kind = WriteIoKind.ioNone then buf_size
  else
    let remaining := if 0 < size_limit then size_limit - total else buf_size
    if 0 < size_limit ∧ remaining = 0 then 0
    else
      let to_write := if 0 < size_limit ∧ remaining < buf_size then remaining else buf_size
      match kind with
      | WriteIoKind.ioFd =>
        match pwrite_rc with
        | none => 0
        | some rc => min rc to_write
      | WriteIoKind.ioMem => to_write
      | WriteIoKind.ioNone => buf_size

/-- Drives the write callback the way the transport delivers a response
body: each element of `chunks` is a chunk size paired with the fd write
outcome for it; delivery stops at the first short acceptance, which the
transport turns into CURLE_WRITE_ERROR.  Returns the final
write_bytes_total and whether every chunk was fully accepted. -/
def runWriteTransfer (kind : WriteIoKind) (size_limit : Nat) :
    List (Nat × Option Nat) → Nat → Nat × Bool
  | [], total => (total, true)
  | (n, rc) :: rest, total =>
    let acc := s3_curl_write_cb kind size_limit total n rc
    if acc = n then runWriteTransfer kind size_limit rest (total + acc)
    else (total + acc, false)

/-- The response body length: the sum of the delivered chunk sizes. -/
def sumChunks (chunks : List (Nat × Option Nat)) : Nat :=
  (chunks.map Prod.fst).sum

/-! ## ListObjectsV2 response parser (src/src/http/parser.c) -/

/-- Position of the first occurrence of `pat` in `s`: the model of C
strstr (which, scanning left to right, returns the first match). -/
def firstOccur (s pat : CStr) : Option Nat :=
  if pat <+: s then some 0
  else
    match s with
    | [] => none
    | _ :: t => (firstOccur t pat).map (· + 1)

/-- Mirrors `s3_xml_get_text_between` (src/src/http/parser.c, lines 10-35):
find the open tag anywhere from `start` to the end of the string, then the
close tag after it, and copy the bytes between them; NULL when either tag is
missing.  Allocation failure is not modelled. -/
def s3_xml_get_text_between (start open_tag close_tag : CStr) : Option CStr :=
  match firstOccur start open_tag with
  | none => none
  | some i =>
    let rest := start.drop (i + open_tag.length)
    match firstOccur rest close_tag with
    | none => none
    | some j => some (rest.take j)

/-- The strtoull base-10 parse applied to Size text: the value of the
leading run of decimal digits, saturated at the unsigned 64-bit maximum.
(XML Size content is plain digits; strtoull's whitespace and sign handling
is outside the modelled inputs.) -/
def parseU64 (s : CStr) : Nat :=
  min ((s.takeWhile fun b => decide (48 ≤ b ∧ b ≤ 57)).foldl
        (fun acc b => acc * 10 + (b - 48)) 0)
    (2 ^ 64 - 1)

/-- The ETag quote strip (parser.c, lines 136-143): when the text has length
at least two and both its first and last byte are a double quote, both are
removed; otherwise the text is unchanged. -/
def stripQuotes (s : CStr) : CStr :=
  if 2 ≤ s.length ∧ s.head? = some 34 ∧ s.getLast? = some 34 then
    (s.drop 1).dropLast
  else s

/-- Mirrors `s3_object_info_t`, with `none` for NULL string fields. -/
structure ObjectInfo where
  key : Option CStr
  size : Nat
  etag : Option CStr
  last_modified : Option CStr
  storage_class : Option CStr
deriving DecidableEq

/-- Field extraction for one Contents block (parser.c, lines 118-151):
every field is searched from the block's start suffix, which extends to the
end of the document — the search is not bounded by the closing Contents
tag. -/
def extractObj (blockStart : CStr) : ObjectInfo where
  key := s3_xml_get_text_between blockStart (strBytes "<Key>") (strBytes "</Key>")
  size := (s3_xml_get_text_between blockStart (strBytes "<Size>")
      (strBytes "</Size>")).elim 0 parseU64
  etag := (s3_xml_get_text_between blockStart (strBytes "<ETag>")
      (strBytes "</ETag>")).map stripQuotes
  last_modified := s3_xml_get_text_between blockStart (strBytes "<LastModified>")
      (strBytes "</LastModified>")
  storage_class := s3_xml_get_text_between blockStart (strBytes "<StorageClass>")
      (strBytes "</StorageClass>")

/-- The Contents scan loop of s3_parse_list_response (parser.c, lines
87-155), with an explicit fuel argument for termination: find the next
Contents open tag, require a closing tag after it, extract the object from
the block start, continue after the closing tag.  Each iteration consumes at
least eleven bytes of the document, so fuel `length + 1` is never exhausted
(`parseContentsFuel_congr`). -/
def parseContentsFuel : Nat → CStr → List ObjectInfo
  | 0, _ => []
  | fuel + 1, s =>
    match firstOccur s (strBytes "<Contents>") with
    | none => []
    | some i =>
      let blockStart := s.drop i
      match firstOccur blockStart (strBytes "</Contents>") with
      | none => []
      | some j =>
        extractObj blockStart ::
          parseContentsFuel fuel (blockStart.drop (j + (strBytes "</Contents>").length))

/-- The Contents scan with its canonical fuel. -/
def parseContents (s : CStr) : List ObjectInfo := parseContentsFuel (s.length + 1) s

/-- The Contents block start suffixes the scan visits, same traversal as
`parseContentsFuel`. -/
def contentsBlocksFuel : Nat → CStr → List CStr
  | 0, _ => []
  | fuel + 1, s =>
    match firstOccur s (strBytes "<Contents>") with
    | none => []
    | some i =>
      let blockStart := s.drop i
      match firstOccur blockStart (strBytes "</Contents>") with
      | none => []
      | some j =>
        blockStart ::
          contentsBlocksFuel fuel (blockStart.drop (j + (strBytes "</Contents>").length))

/-- The block start suffixes with the canonical fuel. -/
def contentsBlocks (s : CStr) : List CStr := contentsBlocksFuel (s.length + 1) s

/-- Mirrors `s3_list_objects_result_t`: the C count field is the length of
`objects`, and a NULL objects pointer is the empty list. -/
structure ListObjectsResult where
  objects : List ObjectInfo
  is_truncated : Bool
  next_continuation_token : Option CStr
deriving DecidableEq

/-- Mirrors `s3_parse_list_response` (parser.c, lines 48-160): a NULL
(`none`) or empty document is an empty listing with code OK; otherwise
IsTruncated (exactly the spellings true and True), NextContinuationToken and
the Contents blocks are extracted.  Allocation failure paths are not
modelled. -/
def s3_parse_list_response (xml : Option CStr) : ErrorCode × ListObjectsResult :=
  match xml with
  | none => (ErrorCode.ok, ⟨[], false, none⟩)
  | some s =>
    if s = [] then (ErrorCode.ok, ⟨[], false, none⟩)
    else
      (ErrorCode.ok,
        { objects := parseContents s
          is_truncated :=
            match s3_xml_get_text_between s (strBytes "<IsTruncated>")
                (strBytes "</IsTruncated>") with
            | some t => decide (t = strBytes "true" ∨ t = strBytes "True")
            | none => false
          next_continuation_token :=
            s3_xml_get_text_between s (strBytes "<NextContinuationToken>")
              (strBytes "</NextContinuationToken>") })

/-! ## Client facade: delete_objects call path and last-error recording -/

/-- Models the delete_objects call path up to the transport: the facade
validation of s3_client_delete_objects (src/src/client.c, lines 635-641,
repeated by the easy backend in http_easy.c, lines 242-246), then the
factory's XML body build (curl_easy_factory.c, lines 732-740); every failure
on this path returns before curl_easy_perform runs.  `rest` abstracts the
configured transport execution on the built body; the Bool of the result
records whether the transport was invoked. -/
def s3_delete_objects_request (opts : DeleteObjectsOpts)
    (rest : CStr → ErrorCode × Bool) : ErrorCode × Bool :=
  if opts.objects = none ∨ opts.objects = some [] then (ErrorCode.invalid_arg, false)
  else
    match s3_build_delete_body opts with
    | Except.error e => (e, false)
    | Except.ok body => rest body

/-- Models s3_client_delete_objects (src/src/client.c, lines 626-655) as a
transition on the client's stored last-error kind, for a non-NULL client:
given the current last_error kind, the call's options (none models a NULL
opts pointer) and the backend's result for a valid input, it returns the
call's result paired with the new last_error kind.  On the
argument-validation path the source returns without calling
s3_client_set_error, so last_error keeps its previous value; on the backend
path the task's error record, whose code equals the returned code, is
stored via s3_client_set_error. -/
def s3_client_delete_objects (last_error : ErrorCode)
    (opts : Option DeleteObjectsOpts) (backendResult : ErrorCode) :
    ErrorCode × ErrorCode :=
  match opts with
  | none => (ErrorCode.invalid_arg, last_error)
  | some o =>
    if o.objects = none ∨ o.objects = some [] then (ErrorCode.invalid_arg, last_error)
    else (backendResult, backendResult)

/-! ## Client configuration string ownership (src/src/client.c) -/

/-- The nine configuration strings a client may own. -/
inductive ConfigField where
  | endpoint
  | region
  | access_key
  | secret_key
  | session_token
  | default_bucket
  | ca_file
  | ca_path
  | proxy
deriving DecidableEq

/-- Client construction options, reduced to the owned strings: the four
required strings (validated non-NULL before copying) and the five optional
ones. -/
structure ClientOpts where
  endpoint : CStr
  region : CStr
  access_key : CStr
  secret_key : CStr
  session_token : Option CStr
  default_bucket : Option CStr
  ca_file : Option CStr
  ca_path : Option CStr
  proxy : Option CStr

/-- The configuration strings s3_client_new duplicates with s3_strdup_a on
its success path (src/src/client.c, lines 256-300): the four required strings
always, each optional string exactly when it was provided. -/
def s3_client_new_copied (o : ClientOpts) : List ConfigField :=
  [ConfigField.endpoint, ConfigField.region, ConfigField.access_key,
    ConfigField.secret_key]
  ++ (if o.session_token.isSome then [ConfigField.session_token] else [])
  ++ (if o.default_bucket.isSome then [ConfigField.default_bucket] else [])
  ++ (if o.ca_file.isSome then [ConfigField.ca_file] else [])
  ++ (if o.ca_path.isSome then [ConfigField.ca_path] else [])
  ++ (if o.proxy.isSome then [ConfigField.proxy] else [])

/-- The configuration strings s3_client_free_strings passes to s3_free
(src/src/client.c, lines 195-200).  The function then sets all nine pointers
to NULL, but ca_file, ca_path and proxy are nulled without being freed. -/
def s3_client_free_strings_freed : List ConfigField :=
  [ConfigField.endpoint, ConfigField.region, ConfigField.access_key,
    ConfigField.secret_key, ConfigField.session_token, ConfigField.default_bucket]

/-! ## Lemmas and theorems -/

/-- Helper: a delete object whose key is present and non-empty. -/
def DeleteObject.validKey (obj : DeleteObject) : Prop :=
  obj.key ≠ none ∧ obj.key ≠ some []

instance (obj : DeleteObject) : Decidable obj.validKey := by
  unfold DeleteObject.validKey; infer_instance

theorem s3_build_delete_body_loop_eq (l : List DeleteObject)
    (h : ∀ obj ∈ l, obj.validKey) :
    s3_build_delete_body_loop l = Except.ok ((l.map claimObjectXml).flatten) := by
  induction l with
  | nil => rfl
  | cons obj rest ih =>
    have hobj := h obj (List.mem_cons_self obj rest)
    have hrest : ∀ o ∈ rest, o.validKey := fun o ho => h o (List.mem_cons_of_mem _ ho)
    rw [s3_build_delete_body_loop]
    rw [if_neg (by rcases hobj with ⟨h1, h2⟩; push_neg; exact ⟨h1, h2⟩)]
    rw [ih hrest]
    simp only [List.map_cons, List.flatten_cons, claimObjectXml]
    congr 1
    have e1 : strBytes "  <Object>\n    <Key>" =
        strBytes "  <Object>" ++ NL ++ strBytes "    <Key>" := by decide
    have e2 : strBytes "</Key>\n" = strBytes "</Key>" ++ NL := by decide
    have e3 : strBytes "    <VersionId>" = strBytes "    <VersionId>" := rfl
    have e4 : strBytes "</VersionId>\n" = strBytes "</VersionId>" ++ NL := by decide
    have e5 : strBytes "  </Object>\n" = strBytes "  </Object>" ++ NL := by decide
    rw [e1, e2, e4, e5]
    simp [List.append_assoc]

theorem s3_build_delete_body_eq (opts : DeleteObjectsOpts) (l : List DeleteObject)
    (hl : opts.objects = some l) (hne : l ≠ [])
    (h : ∀ obj ∈ l, obj.validKey) :
    s3_build_delete_body opts = Except.ok (claimDeleteBody opts.quiet l) := by
  unfold s3_build_delete_body
  rw [hl]
  simp only [if_neg hne]
  rw [s3_build_delete_body_loop_eq l h]
  have e1 : strBytes "<Delete xmlns=\"http://s3.amazonaws.com/doc/2006-03-01/\">\n" =
      strBytes "<Delete xmlns=\"http://s3.amazonaws.com/doc/2006-03-01/\">" ++ NL := by
    decide
  have e2 : strBytes "  <Quiet>true</Quiet>\n" = strBytes "  <Quiet>true</Quiet>" ++ NL := by
    decide
  simp [claimDeleteBody, e1, e2, List.append_assoc]

/-- C1: for every completed request the transport result and the HTTP status
are mapped to the uniform error kind exactly as specified: a transport timeout
to TIMEOUT, name-resolution failure or connection refused to INIT, body
read/write errors to the io kind, any other transport failure to the transport
kind; and for a transport-successful request a status in [200,300) to OK,
401 to AUTH, 403 to ACCESS_DENIED, 404 to NOT_FOUND, 408 to TIMEOUT, and
every other status to HTTP. -/
theorem c1_error_kind_mapping :
    (∀ cc : Nat, cc ≠ CURLE_OK →
      s3_http_map_curl_error cc = claimTransportKind cc) ∧
    (∀ status : Int, s3_http_map_http_status status = claimStatusKind status) := by
  constructor
  · intro cc hcc
    unfold s3_http_map_curl_error claimTransportKind
    simp only [CURLE_OK] at hcc
    split_ifs <;> simp_all [CURLE_OK, CURLE_OPERATION_TIMEDOUT,
      CURLE_COULDNT_RESOLVE_HOST, CURLE_COULDNT_CONNECT,
      CURLE_READ_ERROR, CURLE_WRITE_ERROR]
  · intro status
    unfold s3_http_map_http_status claimStatusKind
    split_ifs <;> first | rfl | omega

/-- C1 witness: the mapping theorem applied at the concrete transport code
CURLE_OPERATION_TIMEDOUT (28). -/
theorem c1_error_kind_mapping_witness :
    s3_http_map_curl_error CURLE_OPERATION_TIMEDOUT =
      claimTransportKind CURLE_OPERATION_TIMEDOUT :=
  c1_error_kind_mapping.1 CURLE_OPERATION_TIMEDOUT (by decide)

/-- C2: for every delete_objects input with at least one object and all keys
non-null and non-empty, the built XML body is exactly the concatenation the
claim describes: the Delete root line, the optional Quiet line, one
Object/Key/optional-VersionId fragment per input object in input order, and
the closing Delete tag, with ampersand, angle brackets and double quote
escaped and every other byte unchanged. -/
theorem c2_delete_body_format (opts : DeleteObjectsOpts) (l : List DeleteObject)
    (hl : opts.objects = some l) (hne : l ≠ [])
    (h : ∀ obj ∈ l, obj.validKey) :
    s3_build_delete_body opts = Except.ok (claimDeleteBody opts.quiet l) :=
  s3_build_delete_body_eq opts l hl hne h

/-- C2 witness: the body-format theorem applied to the spec's own example
input, two objects with keys a&b and c, the second carrying version v1. -/
theorem c2_delete_body_format_witness :
    s3_build_delete_body
      ⟨some [⟨some (strBytes "a&b"), none⟩, ⟨some (strBytes "c"), some (strBytes "v1")⟩],
        false⟩ =
      Except.ok (claimDeleteBody false
        [⟨some (strBytes "a&b"), none⟩, ⟨some (strBytes "c"), some (strBytes "v1")⟩]) :=
  c2_delete_body_format _ _ rfl (by decide) (by decide)

/-- C3 (refuted by the code): a client whose last_error kind is OK and that
calls delete_objects with a NULL objects array gets S3_E_INVALID_ARG returned
while its last_error stays OK: the validation path of s3_client_delete_objects
returns without calling s3_client_set_error, unlike every other entry point,
so last_error.kind = OK does not imply the most recent operation returned
OK. -/
theorem c3_delete_objects_skips_last_error :
    s3_client_delete_objects ErrorCode.ok (some ⟨none, false⟩) ErrorCode.ok =
      (ErrorCode.invalid_arg, ErrorCode.ok) ∧
    ErrorCode.invalid_arg ≠ ErrorCode.ok := by
  decide

theorem s3_build_delete_body_loop_error (l : List DeleteObject)
    (h : ∃ obj ∈ l, ¬ obj.validKey) :
    s3_build_delete_body_loop l = Except.error ErrorCode.invalid_arg := by
  induction l with
  | nil => simp at h
  | cons obj rest ih =>
    rw [s3_build_delete_body_loop]
    by_cases hk : obj.key = none ∨ obj.key = some []
    · rw [if_pos hk]
    · rw [if_neg hk]
      have hrest : ∃ o ∈ rest, ¬ o.validKey := by
        rcases h with ⟨o, ho, hbad⟩
        rcases List.mem_cons.mp ho with rfl | ho2
        · push_neg at hk
          exact absurd ⟨hk.1, hk.2⟩ hbad
        · exact ⟨o, ho2, hbad⟩
      rw [ih hrest]

/-- C4: a delete_objects call whose objects array is null or empty, or that
contains an object with a null or empty key, returns INVALID_ARG and issues
no transport request: the failure happens in argument validation or while
building the XML body, before any submission to the HTTP transport. -/
theorem c4_invalid_delete_no_transport (opts : DeleteObjectsOpts)
    (rest : CStr → ErrorCode × Bool)
    (h : opts.objects = none ∨ opts.objects = some [] ∨
      ∃ l, opts.objects = some l ∧ ∃ obj ∈ l, ¬ obj.validKey) :
    s3_delete_objects_request opts rest = (ErrorCode.invalid_arg, false) := by
  unfold s3_delete_objects_request
  rcases h with h | h | ⟨l, hl, hbad⟩
  · rw [if_pos (Or.inl h)]
  · rw [if_pos (Or.inr h)]
  · by_cases hempty : l = []
    · subst hempty
      rw [if_pos (Or.inr hl)]
    · have hne : ¬(opts.objects = none ∨ opts.objects = some []) := by
        simp [hl, hempty]
      rw [if_neg hne]
      have hb : s3_build_delete_body opts = Except.error ErrorCode.invalid_arg := by
        unfold s3_build_delete_body
        rw [hl]
        simp only [if_neg hempty, s3_build_delete_body_loop_error l hbad]
      rw [hb]

/-- C4 witness: the validation theorem applied to a one-object input whose
key is the empty string. -/
theorem c4_invalid_delete_no_transport_witness :
    s3_delete_objects_request ⟨some [⟨some [], none⟩], true⟩
      (fun _ => (ErrorCode.ok, true)) = (ErrorCode.invalid_arg, false) :=
  c4_invalid_delete_no_transport _ _
    (Or.inr (Or.inr ⟨[⟨some [], none⟩], rfl, ⟨some [], none⟩, by simp, by decide⟩))

/-- C7 counterexample: an input of 1001 objects with valid keys is not
rejected: facade validation passes, the XML body is built, and the call
proceeds to the transport as a single request, so the claimed 1000-entry
limit is not enforced by the client. -/
theorem c7_thousand_limit_not_enforced_cex :
    (List.replicate 1001 (⟨some [107], none⟩ : DeleteObject)).length = 1001 ∧
    s3_delete_objects_request
      ⟨some (List.replicate 1001 ⟨some [107], none⟩), false⟩
      (fun _ => (ErrorCode.ok, true)) = (ErrorCode.ok, true) := by
  refine ⟨by simp, ?_⟩
  unfold s3_delete_objects_request
  have hvalid : ∀ obj ∈ List.replicate 1001 (⟨some [107], none⟩ : DeleteObject),
      obj.validKey := by
    intro obj hm
    rw [List.eq_of_mem_replicate hm]
    decide
  rw [if_neg (by simp),
    s3_build_delete_body_eq ⟨some (List.replicate 1001 ⟨some [107], none⟩), false⟩ _
      rfl (by simp) hvalid]

/-- C7 (amended): the client enforces no upper bound on the number of
delete_objects entries: every objects array with at least one entry and all
keys non-null and non-empty — no matter how many entries, in particular more
than 1000 — passes validation, has its body built, and proceeds to the
transport as a single request. -/
theorem c7_no_client_side_limit (opts : DeleteObjectsOpts)
    (l : List DeleteObject) (rest : CStr → ErrorCode × Bool)
    (hl : opts.objects = some l) (hne : l ≠ [])
    (h : ∀ obj ∈ l, obj.validKey) :
    s3_delete_objects_request opts rest = rest (claimDeleteBody opts.quiet l) := by
  unfold s3_delete_objects_request
  rw [if_neg (by simp [hl, hne]), s3_build_delete_body_eq opts l hl hne h]

/-- C7 witness: the no-limit theorem applied to the 1001-entry input. -/
theorem c7_no_client_side_limit_witness :
    s3_delete_objects_request
      ⟨some (List.replicate 1001 ⟨some [107], none⟩), true⟩
      (fun _ => (ErrorCode.ok, true)) = (ErrorCode.ok, true) :=
  c7_no_client_side_limit _ _ _ rfl (by simp)
    (by intro obj hm; rw [List.eq_of_mem_replicate hm]; decide)

/-- C8 (refuted by the code): a client constructed with ca_file, ca_path and
proxy set duplicates all nine configuration strings, but
s3_client_free_strings frees only six of them: the ca_file, ca_path and
proxy copies are set to NULL without being freed, so these strings leak at
client destruction (the six freed fields are each freed once). -/
theorem c8_config_strings_leak :
    (ConfigField.ca_file ∈ s3_client_new_copied
        ⟨[101], [114], [97], [115], none, none, some [99], some [100], some [112]⟩ ∧
      ConfigField.ca_path ∈ s3_client_new_copied
        ⟨[101], [114], [97], [115], none, none, some [99], some [100], some [112]⟩ ∧
      ConfigField.proxy ∈ s3_client_new_copied
        ⟨[101], [114], [97], [115], none, none, some [99], some [100], some [112]⟩) ∧
    (ConfigField.ca_file ∉ s3_client_free_strings_freed ∧
      ConfigField.ca_path ∉ s3_client_free_strings_freed ∧
      ConfigField.proxy ∉ s3_client_free_strings_freed) ∧
    s3_client_free_strings_freed.Nodup := by
  decide

theorem s3_url_encode_byte_eq (b : Nat) :
    s3_url_encode_byte b = claimQueryEncodeByte b := by
  have h : b % 256 < 256 := Nat.mod_lt _ (by norm_num)
  simp only [s3_url_encode_byte, claimQueryEncodeByte]
  generalize b % 256 = c at h ⊢
  revert c
  decide

theorem s3_url_encode_query_eq (s : CStr) :
    s3_url_encode_query s = claimQueryEncode s := by
  unfold s3_url_encode_query claimQueryEncode
  rw [funext s3_url_encode_byte_eq]

/-- C5: the list_objects request URL is the endpoint with a single trailing
slash stripped, a slash, the bucket, then exactly the query marker
list-type=2, followed by the encoded prefix when a non-empty prefix is
given, max-keys when positive, and the encoded continuation token when
non-empty, in that order, with the RFC 3986 query-safe encoding that keeps
unreserved octets literal and percent-encodes every other octet with two
uppercase hex digits. -/
theorem c5_list_url_format (endpoint : CStr) (default_bucket : Option CStr)
    (opts : ListObjectsOpts) (bucket : CStr)
    (hb : opts.bucket = some bucket ∨
      (opts.bucket = none ∧ default_bucket = some bucket)) :
    s3_build_list_url (some endpoint) default_bucket opts =
      Except.ok (stripTrailingSlash endpoint ++ [47] ++ bucket
        ++ strBytes "?list-type=2"
        ++ (match opts.pfx with
            | some p => if p ≠ [] then strBytes "&prefix=" ++ claimQueryEncode p else []
            | none => [])
        ++ (if 0 < opts.max_keys then
              strBytes "&max-keys=" ++ strBytes (toString opts.max_keys) else [])
        ++ (match opts.continuation_token with
            | some t => if t ≠ [] then
                strBytes "&continuation-token=" ++ claimQueryEncode t else []
            | none => [])) := by
  unfold s3_build_list_url
  rcases hb with hb | ⟨hb, hd⟩
  · rw [hb]
    simp [s3_url_encode_query_eq]
  · rw [hb, hd]
    simp [s3_url_encode_query_eq]

/-- C5 witness: the URL-format theorem applied to a concrete endpoint with a
trailing slash, a bucket from the options, a prefix containing a space, a
positive max-keys and no continuation token. -/
theorem c5_list_url_format_witness :
    s3_build_list_url (some (strBytes "http://e/")) none
      ⟨some (strBytes "b"), some (strBytes "a b"), 5, none⟩ =
      Except.ok (stripTrailingSlash (strBytes "http://e/") ++ [47] ++ strBytes "b"
        ++ strBytes "?list-type=2"
        ++ (strBytes "&prefix=" ++ claimQueryEncode (strBytes "a b"))
        ++ (strBytes "&max-keys=" ++ strBytes (toString 5))
        ++ []) := by
  have h := c5_list_url_format (strBytes "http://e/") none
    ⟨some (strBytes "b"), some (strBytes "a b"), 5, none⟩ (strBytes "b") (Or.inl rfl)
  simpa using h

theorem s3_curl_write_cb_le (sl total n : Nat) (rc : Option Nat) (hsl : 0 < sl) :
    s3_curl_write_cb WriteIoKind.ioFd sl total n rc ≤ sl - total := by
  rcases rc with _ | rc <;>
    (simp only [s3_curl_write_cb]; split_ifs <;> simp_all)

theorem runWriteTransfer_le (sl : Nat) (chunks : List (Nat × Option Nat))
    (total : Nat) (hsl : 0 < sl) (h : total ≤ sl) :
    (runWriteTransfer WriteIoKind.ioFd sl chunks total).1 ≤ sl := by
  induction chunks generalizing total with
  | nil => simpa [runWriteTransfer]
  | cons c rest ih =>
    obtain ⟨n, rc⟩ := c
    rw [runWriteTransfer]
    have hcb := s3_curl_write_cb_le sl total n rc hsl
    split_ifs
    · exact ih _ (by omega)
    · simpa using by omega

theorem runWriteTransfer_ok_sum (kind : WriteIoKind) (sl : Nat)
    (chunks : List (Nat × Option Nat)) (total : Nat)
    (h : (runWriteTransfer kind sl chunks total).2 = true) :
    (runWriteTransfer kind sl chunks total).1 = total + sumChunks chunks := by
  induction chunks generalizing total with
  | nil => simp [runWriteTransfer, sumChunks]
  | cons c rest ih =>
    obtain ⟨n, rc⟩ := c
    rw [runWriteTransfer] at h ⊢
    split_ifs at h ⊢ with hacc
    rw [ih _ h, hacc]
    simp [sumChunks, Nat.add_assoc]

/-- C9: with a positive size limit (get_fd's max_size), the fd write adapter
accepts at most max_size bytes in total over any delivery, and when the
transfer completes with every chunk accepted, the accepted total equals the
body length, which therefore fits within max_size; a short acceptance is a
transport write error, whose code is mapped to the io kind. -/
theorem c9_get_fd_size_limit (sl : Nat) (chunks : List (Nat × Option Nat))
    (hsl : 0 < sl) :
    (runWriteTransfer WriteIoKind.ioFd sl chunks 0).1 ≤ sl ∧
    ((runWriteTransfer WriteIoKind.ioFd sl chunks 0).2 = true →
      (runWriteTransfer WriteIoKind.ioFd sl chunks 0).1 = sumChunks chunks ∧
      sumChunks chunks ≤ sl) ∧
    s3_http_map_curl_error CURLE_WRITE_ERROR = ErrorCode.io := by
  have hle := runWriteTransfer_le sl chunks 0 hsl (Nat.zero_le _)
  refine ⟨hle, fun hok => ?_, by decide⟩
  have hsum := runWriteTransfer_ok_sum WriteIoKind.ioFd sl chunks 0 hok
  constructor
  · simpa using hsum
  · omega

theorem firstOccur_isPrefix (s pat : CStr) (i : Nat)
    (h : firstOccur s pat = some i) : pat <+: s.drop i := by
  induction s generalizing i with
  | nil =>
    rw [firstOccur] at h
    split_ifs at h with hp
    simp only [Option.some.injEq] at h
    subst h
    simpa using hp
  | cons a t ih =>
    rw [firstOccur] at h
    split_ifs at h with hp
    · simp only [Option.some.injEq] at h
      subst h
      simpa using hp
    · rcases hmap : firstOccur t pat with _ | k
      · rw [hmap] at h
        simp at h
      · rw [hmap] at h
        simp at h
        subst h
        simpa using ih k hmap

theorem firstOccur_least (s pat : CStr) (i : Nat)
    (h : firstOccur s pat = some i) : ∀ j, j < i → ¬ pat <+: s.drop j := by
  induction s generalizing i with
  | nil =>
    intro j hj
    rw [firstOccur] at h
    split_ifs at h with hp
    simp only [Option.some.injEq] at h
    omega
  | cons a t ih =>
    intro j hj
    rw [firstOccur] at h
    split_ifs at h with hp
    · simp only [Option.some.injEq] at h
      omega
    · rcases hmap : firstOccur t pat with _ | k
      · rw [hmap] at h
        simp at h
      · rw [hmap] at h
        simp at h
        subst h
        cases j with
        | zero => simpa using hp
        | succ j2 => simpa using ih k hmap j2 (by omega)

theorem firstOccur_add_le (s pat : CStr) (i : Nat) (hp : pat ≠ [])
    (h : firstOccur s pat = some i) : i + pat.length ≤ s.length := by
  have hpre := firstOccur_isPrefix s pat i h
  have hlen := hpre.length_le
  simp only [List.length_drop] at hlen
  have hpos : 0 < pat.length := List.length_pos.mpr hp
  omega

theorem parseContentsFuel_eq_map (fuel : Nat) (s : CStr) :
    parseContentsFuel fuel s = (contentsBlocksFuel fuel s).map extractObj := by
  induction fuel generalizing s with
  | zero => rfl
  | succ fuel ih =>
    simp only [parseContentsFuel, contentsBlocksFuel]
    rcases hc : firstOccur s (strBytes "<Contents>") with _ | i
    · rfl
    · rcases he : firstOccur (s.drop i) (strBytes "</Contents>") with _ | j
      · simp [he]
      · simp [he, ih]

theorem parseContentsFuel_irrel : ∀ n : Nat, ∀ s : CStr, s.length = n →
    ∀ f1 f2 : Nat, n < f1 → n < f2 →
      parseContentsFuel f1 s = parseContentsFuel f2 s := by
  intro n
  induction n using Nat.strong_induction_on with
  | _ n ih =>
    intro s hs f1 f2 h1 h2
    obtain ⟨a, rfl⟩ : ∃ a, f1 = a + 1 := ⟨f1 - 1, by omega⟩
    obtain ⟨b, rfl⟩ : ∃ b, f2 = b + 1 := ⟨f2 - 1, by omega⟩
    simp only [parseContentsFuel]
    rcases hc : firstOccur s (strBytes "<Contents>") with _ | i
    · rfl
    · rcases he : firstOccur (s.drop i) (strBytes "</Contents>") with _ | j
      · simp [he]
      · simp only [he]
        have hbound := firstOccur_add_le (s.drop i) (strBytes "</Contents>") j
          (by decide) he
        simp only [List.length_drop] at hbound
        have hlen : ((s.drop i).drop (j + (strBytes "</Contents>").length)).length =
            s.length - i - (j + (strBytes "</Contents>").length) := by
          simp only [List.length_drop]
        have hct : 0 < (strBytes "</Contents>").length := by decide
        congr 1
        exact ih ((s.drop i).drop (j + (strBytes "</Contents>").length)).length
          (by omega) _ rfl a b (by omega) (by omega)

theorem parseContentsFuel_congr (fuel : Nat) (s : CStr) (h : s.length < fuel) :
    parseContentsFuel fuel s = parseContents s :=
  parseContentsFuel_irrel s.length s rfl fuel (s.length + 1) h (by omega)

/-- C6 counterexample: in a document whose first Contents block contains no
Key element, the parser assigns that first object the Key text of the
following block — text that lies outside the block — refuting the claim as
stated. -/
theorem c6_key_taken_outside_block_cex :
    ((s3_parse_list_response (some (strBytes
        "<Contents><Size>5</Size></Contents><Contents><Key>b</Key><Size>7</Size></Contents>"))).2.objects.map
      ObjectInfo.key = [some (strBytes "b"), some (strBytes "b")]) ∧
    firstOccur (strBytes "<Contents><Size>5</Size></Contents>")
      (strBytes "<Key>") = none := by
  decide

/-- C6 (amended): the parser visits the Contents blocks in order and
extracts each object's Key, Size (unsigned decimal), ETag (surrounding
quotes stripped when both present), LastModified and StorageClass by a
first-match search that starts at that block's start but runs to the end of
the document rather than stopping at the closing Contents tag: each tag
lookup returns the first occurrence at or after the block start (never an
earlier one), so when a tag occurs inside the block the first match inside
the block is taken, but a tag missing from the block can take text from
beyond the block's end. -/
theorem c6_parser_first_match_from_block_start :
    (∀ s : CStr, parseContents s = (contentsBlocks s).map extractObj) ∧
    (∀ s pat : CStr, ∀ i : Nat, firstOccur s pat = some i →
      pat <+: s.drop i ∧ ∀ j, j < i → ¬ pat <+: s.drop j) := by
  constructor
  · intro s
    exact parseContentsFuel_eq_map _ s
  · intro s pat i h
    exact ⟨firstOccur_isPrefix s pat i h, firstOccur_least s pat i h⟩

/-- C6 witness: the first-match conjunct applied at a concrete document and
tag (the first Key occurrence is at offset 2 and no earlier). -/
theorem c6_parser_first_match_from_block_start_witness :
    strBytes "<Key>" <+: (strBytes "ab<Key>").drop 2 ∧
    ∀ j, j < 2 → ¬ strBytes "<Key>" <+: (strBytes "ab<Key>").drop j :=
  c6_parser_first_match_from_block_start.2 (strBytes "ab<Key>")
    (strBytes "<Key>") 2 (by decide)

/-- C10: a NULL or empty response buffer parses to OK with the all-empty
result: no objects (count zero, NULL array), not truncated, and no
continuation token. -/
theorem c10_empty_response_empty_listing :
    s3_parse_list_response none = (ErrorCode.ok, ⟨[], false, none⟩) ∧
    s3_parse_list_response (some []) = (ErrorCode.ok, ⟨[], false, none⟩) :=
  ⟨rfl, rfl⟩

/-- C9 witness: the size-limit theorem applied to a limit of 3 bytes and a
body of two 2-byte chunks, each fd write succeeding in full. -/
theorem c9_get_fd_size_limit_witness :
    (runWriteTransfer WriteIoKind.ioFd 3 [(2, some 2), (2, some 2)] 0).1 ≤ 3 ∧
    ((runWriteTransfer WriteIoKind.ioFd 3 [(2, some 2), (2, some 2)] 0).2 = true →
      (runWriteTransfer WriteIoKind.ioFd 3 [(2, some 2), (2, some 2)] 0).1 =
        sumChunks [(2, some 2), (2, some 2)] ∧
      sumChunks [(2, some 2), (2, some 2)] ≤ 3) ∧
    s3_http_map_curl_error CURLE_WRITE_ERROR = ErrorCode.io :=
  c9_get_fd_size_limit 3 [(2, some 2), (2, some 2)] (by decide)

end S3
